import Mathlib

/-!
Verification of the NIH_Reporter_Data_EL repository core: the semaphore-bounded
async downloader (pubmed_data_async_download.py) and the PubMed PMID-to-DOI
extraction pipeline (pubmed_pmid_to_doi.py), shallowly embedded in Lean.
Definitions come first, theorems after.
-/

namespace AsyncDL

/-- Outcome of one GET attempt as observed by the retry loop of download_file
in pubmed_data_async_download.py: either the request object comes back (with
some HTTP status; aiohttp does not raise on a non-success status, the code
calls no raise_for_status and its status assert is commented out) and the body
bytes are read, or an exception is raised somewhere inside the try block
(timeout, connection reset, failed read), which the bare except catches. -/
inductive AttemptResult where
  | ok (status : Nat) (body : List Nat)
  | exn
deriving DecidableEq

/-- Observable events of download_file, in program order: semaphore acquire
(entry into the async-with sem block), the 1 s pacing sleep, each GET attempt,
the 1 s sleep before a retry, the gzip file write, and the semaphore release
(exit of the async-with sem block). -/
inductive Event where
  | acquireSem
  | pacingSleep
  | getAttempt (i : Nat)
  | retrySleep
  | fileWrite (path : String) (body : List Nat)
  | releaseSem
deriving DecidableEq

def isGet : Event → Bool
  | Event.getAttempt _ => true
  | _ => false

def isWrite : Event → Bool
  | Event.fileWrite _ _ => true
  | _ => false

def isAcquire : Event → Bool
  | Event.acquireSem => true
  | _ => false

def isRelease : Event → Bool
  | Event.releaseSem => true
  | _ => false

/-- The while-loop of download_file (pubmed_data_async_download.py, lines
58-77):

  data = None; fail_count = 0
  while data is None:
      try:
          async with session.get(url) as response:
              data = await response.read()
      except:
          fail_count += 1
          if fail_count > 10: break
          await asyncio.sleep(1)

The oracle gives the outcome of the attempt with 0-based index i; fc is the
current value of fail_count. Returns the trace of attempt/retry-sleep events
together with the final value of data (none when the loop was abandoned by
the break). fail_count only ever grows, so 11 - fc bounds the remaining
failed attempts. -/
def downloadLoop (oracle : Nat → AttemptResult) (i fc : Nat) :
    List Event × Option (List Nat) :=
  match oracle i with
  | AttemptResult.ok _status body => ([Event.getAttempt i], some body)
  | AttemptResult.exn =>
      if _h : 10 < fc + 1 then
        ([Event.getAttempt i], none)
      else
        let rest := downloadLoop oracle (i + 1) (fc + 1)
        (Event.getAttempt i :: Event.retrySleep :: rest.1, rest.2)
termination_by 11 - fc
decreasing_by omega

/-- file_name = url.split("/")[-1] -/
def fileNameOf (url : String) : String :=
  ((url.splitOn "/").getLast?).getD url

/-- download_file (pubmed_data_async_download.py, lines 48-86): acquire the
semaphore, sleep 1 s, run the retry loop inside the client session, then,
only if data is neither None nor empty (the Python guard is the truthiness
test *if data:*), write the body to data/<file_name>, and release the
semaphore on leaving the async-with sem block. The embedding returns the
event trace of the call; the call itself raises nothing, since the loop body
catches every exception of the GET. -/
def download_file (url : String) (oracle : Nat → AttemptResult) : List Event :=
  let file_name := fileNameOf url
  let r := downloadLoop oracle 0 0
  Event.acquireSem :: Event.pacingSleep ::
    (r.1 ++
      (match r.2 with
       | some body =>
           if body.isEmpty then []
           else [Event.fileWrite ("data/" ++ file_name) body]
       | none => []) ++
      [Event.releaseSem])

/-- Number of GET attempts recorded in an event trace. -/
def numAttempts (t : List Event) : Nat := t.countP isGet

/-- A synthetic endpoint whose every GET attempt raises. -/
def alwaysFailOracle : Nat → AttemptResult := fun _ => AttemptResult.exn

/-- A synthetic endpoint that always returns HTTP 404 with body bytes [7]. -/
def oracle404 : Nat → AttemptResult := fun _ => AttemptResult.ok 404 [7]

/-- A synthetic endpoint that raises twice, then returns HTTP 500 with body
bytes [9]. -/
def oracleRetryThen500 : Nat → AttemptResult := fun i =>
  if i < 2 then AttemptResult.exn else AttemptResult.ok 500 [9]

/-- A synthetic endpoint that raises on the first 5 attempts and then
succeeds with HTTP 200 and the given body. -/
def failsThenBody (b : List Nat) : Nat → AttemptResult := fun i =>
  if i < 5 then AttemptResult.exn else AttemptResult.ok 200 b

end AsyncDL

namespace SemModel

/-- State of one of the tasks created by main in
pubmed_data_async_download.py with respect to the shared semaphore: it has
not yet entered the async-with sem block, it is inside the permit-guarded
section, or it has left it. -/
inductive TaskState where
  | pending
  | holding
  | done
deriving DecidableEq

def isHolding : TaskState → Bool
  | TaskState.holding => true
  | _ => false

/-- Global state of a batch run: the internal counter of the
asyncio.Semaphore and the per-task states. -/
structure SemSystem where
  counter : Nat
  tasks : List TaskState
deriving DecidableEq

/-- Number of tasks currently inside the permit-guarded section. -/
def holdingCount (ts : List TaskState) : Nat := ts.countP isHolding

/-- Interleaving semantics of the cooperative scheduler, restricted to the
two suspension-relevant semaphore operations: a pending task may enter the
async-with sem block only when the semaphore counter is positive
(asyncio.Semaphore.acquire blocks otherwise), decrementing the counter; a
task inside the block leaves it by releasing, incrementing the counter. -/
inductive SemStep : SemSystem → SemSystem → Prop where
  | acquire (s : SemSystem) (i : Nat) (hi : i < s.tasks.length)
      (hp : s.tasks.get ⟨i, hi⟩ = TaskState.pending) (hc : 0 < s.counter) :
      SemStep s ⟨s.counter - 1, s.tasks.set i TaskState.holding⟩
  | release (s : SemSystem) (i : Nat) (hi : i < s.tasks.length)
      (hh : s.tasks.get ⟨i, hi⟩ = TaskState.holding) :
      SemStep s ⟨s.counter + 1, s.tasks.set i TaskState.done⟩

/-- Initial state of main (pubmed_data_async_download.py, lines 89-97):
sem = asyncio.Semaphore(3) and 10 created download tasks, none started. -/
def mainInit : SemSystem := ⟨3, List.replicate 10 TaskState.pending⟩

/-- States reachable during the batch run of main. -/
def Reachable : SemSystem → Prop := Relation.ReflTransGen SemStep mainInit

/-- The state after the first task acquires the semaphore. -/
def afterFirstAcquire : SemSystem :=
  ⟨2, (List.replicate 10 TaskState.pending).set 0 TaskState.holding⟩

end SemModel

namespace PmidDoi

/-- One ArticleId descendant element of an ArticleIdList element of a PubMed
XML document: its IdType attribute and its text content (None for an empty
element). -/
structure ArticleId where
  idType : String
  text : Option String
deriving DecidableEq

/-- element.xpath of ArticleId descendants with the given IdType, taking
index [0]: the first matching descendant in document order, if any. -/
def firstIdOfType (t : String) (e : List ArticleId) : Option ArticleId :=
  (e.filter (fun a => a.idType == t)).head?

/-- Body of the iterparse loop of pmid_to_doi_linktable
(pubmed_pmid_to_doi.py, lines 79-85) for one ArticleIdList element e
(modelled by the list of its ArticleId descendants):

  article_id_pubmed = element.xpath of pubmed ids, index [0], .text
  try: article_id_doi = element.xpath of doi ids, index [0], .text
  except: article_id_doi = None
  article_list.append((article_id_pubmed, article_id_doi))

Only the doi lookup sits in a try block: a missing pubmed ArticleId raises
an uncaught IndexError. -/
def extractPair (e : List ArticleId) :
    Except String (Option String × Option String) :=
  match firstIdOfType "pubmed" e with
  | none => Except.error "IndexError: list index out of range"
  | some a =>
      let article_id_doi : Option String :=
        match firstIdOfType "doi" e with
        | none => none
        | some d => d.text
      Except.ok (a.text, article_id_doi)

/-- The doi text the loop body computes for an element (None when the doi
ArticleId is missing or empty). -/
def doiOf (e : List ArticleId) : Option String :=
  match firstIdOfType "doi" e with
  | none => none
  | some d => d.text

/-- The element has a pubmed ArticleId whose text is present. -/
def hasPMID (e : List ArticleId) : Bool :=
  match firstIdOfType "pubmed" e with
  | none => false
  | some a => a.text.isSome

/-- The element carries a DOI: a doi ArticleId with present text. -/
def carriesDOI (e : List ArticleId) : Bool :=
  match firstIdOfType "doi" e with
  | none => false
  | some d => d.text.isSome

/-- The iterparse loop of pmid_to_doi_linktable over the whole document (the
stream of ArticleIdList elements): builds article_list in document order;
an uncaught IndexError from any element aborts the whole call. -/
def build_article_list (doc : List (List ArticleId)) :
    Except String (List (Option String × Option String)) :=
  match doc with
  | [] => Except.ok []
  | e :: rest =>
      match extractPair e with
      | Except.error err => Except.error err
      | Except.ok pair =>
          match build_article_list rest with
          | Except.error err => Except.error err
          | Except.ok pairs => Except.ok (pair :: pairs)

/-- pd.DataFrame(article_list).dropna(): drops every row with a missing
value in any column, i.e. keeps exactly the rows whose PMID cell and DOI
cell are both present. -/
def dropna (rows : List (Option String × Option String)) :
    List (Option String × Option String) :=
  rows.filter (fun r => r.1.isSome && r.2.isSome)

/-- The dataframe written to parquet: its column names and its rows (cells
are optional, a dataframe cell can hold None). -/
structure Table where
  columns : List String
  rows : List (Option String × Option String)
deriving DecidableEq

/-- pmid_to_doi_linktable (pubmed_pmid_to_doi.py, lines 73-106), modelled up
to the table that is written to parquet: iterate over the ArticleIdList
elements building article_list, form pd.DataFrame(article_list).dropna(),
then assign df.columns = two fixed names. pd.DataFrame of an empty list has
0 columns, and assigning a 2-element column list to it raises
ValueError (Length mismatch); when article_list is nonempty the frame has 2
columns, which dropna preserves, so the assignment succeeds. -/
def pmid_to_doi_linktable (doc : List (List ArticleId)) : Except String Table :=
  match build_article_list doc with
  | Except.error err => Except.error err
  | Except.ok article_list =>
      if article_list.isEmpty then
        Except.error "ValueError: Length mismatch on empty-frame column assignment"
      else
        Except.ok { columns := ["PMID", "DOI"], rows := dropna article_list }

/-- A document with K = 2 ArticleIdList elements of which M = 1 carries a
DOI. -/
def docKM : List (List ArticleId) :=
  [[⟨"pubmed", some "101"⟩, ⟨"doi", some "10.1000/a"⟩],
   [⟨"pubmed", some "102"⟩]]

/-- A one-element document whose element has both identifiers. -/
def docC10 : List (List ArticleId) :=
  [[⟨"pubmed", some "7"⟩, ⟨"doi", some "10.2000/b"⟩]]

/-- The table pmid_to_doi_linktable publishes for docC10. -/
def tblC10 : Table := ⟨["PMID", "DOI"], [(some "7", some "10.2000/b")]⟩

/-- Python str.strip(chars): removes from both ends every character that is
a member of the chars set (it does NOT remove a suffix string). -/
def pyStrip (chars s : String) : String :=
  String.mk (((s.toList.dropWhile (fun c => chars.toList.contains c)).reverse.dropWhile
    (fun c => chars.toList.contains c)).reverse)

/-- Python single-character str.split, over the character list: splits on
every occurrence of sep, keeping empty segments, and yields one (empty)
segment for the empty string. -/
def splitOnChar (sep : Char) : List Char → List (List Char)
  | [] => [[]]
  | c :: rest =>
      let r := splitOnChar sep rest
      if c = sep then [] :: r
      else
        match r with
        | [] => [[c]]
        | g :: gs => (c :: g) :: gs

/-- Python "/".join over character-list segments. -/
def joinSlash : List (List Char) → List Char
  | [] => []
  | [g] => g
  | g :: gs => g ++ '/' :: joinSlash gs

/-- url.split("/")[-1] -/
def lastSegment (s : String) : String :=
  String.mk (((splitOnChar '/' s.toList).getLast?).getD s.toList)

/-- s.rsplit(".", 1)[0]: everything before the last dot, or s itself when s
has no dot. -/
def rsplitDotHead (s : String) : String :=
  if s.toList.contains '.' then
    String.mk (((s.toList.reverse.dropWhile (fun c => c != '.')).tail).reverse)
  else s

/-- "/".join(fp.split("/")[:-2]) -/
def dropLast2Join (fp : String) : String :=
  String.mk (joinSlash (((splitOnChar '/' fp.toList).dropLast).dropLast))

/-- File path used by the synchronous download_file of pubmed_pmid_to_doi.py
(lines 27-31): save_dir/fname with save_dir = save_dir_pfx/staging and fname
the last URL segment. -/
def sync_download_path (save_dir_pfx url : String) : String :=
  (save_dir_pfx ++ "/staging") ++ "/" ++ lastSegment url

/-- Extracted file path of uncompress_file (lines 59-61). -/
def uncompress_path (fp : String) : String :=
  (dropLast2Join fp ++ "/" ++ "extracted/") ++ rsplitDotHead (lastSegment fp)

/-- Parquet path pmid_to_doi_linktable saves to (lines 99-101). -/
def parquet_save_path (xml_file_path : String) : String :=
  (dropLast2Join xml_file_path ++ "/" ++ "data_lake/") ++
    (rsplitDotHead (lastSegment xml_file_path) ++ ".parquet")

/-- The parquet path data_lake_presence_check looks up (lines 142-148):
parquet_prefix + file_name.strip(".xml.gz") + ".parquet". -/
def presence_parquet_path (file_name : String) : String :=
  "pubmed_data/data_lake/" ++ (pyStrip ".xml.gz" file_name ++ ".parquet")

/-- data_lake_presence_check, with os.path.exists abstracted as path_exists. -/
def data_lake_presence_check (path_exists : String → Bool)
    (file_name : String) : Bool :=
  path_exists (presence_parquet_path file_name)

def baseline_url : String := "https://ftp.ncbi.nlm.nih.gov/pubmed/baseline/"

/-- The data-lake parquet path that processing link lnk through
el_single_link (download to staging, uncompress, pmid_to_doi_linktable)
actually creates. -/
def saved_parquet_path (lnk : String) : String :=
  parquet_save_path (uncompress_path (sync_download_path "pubmed_data" (baseline_url ++ lnk)))

/-- One pass of the main_function loop body over a single link, tracking the
data lake contents and the number of network GETs issued for this WorkUnit:
when the presence check finds the parquet it continues (0 GETs); otherwise
el_single_link downloads (1 GET) and the parquet lands at
saved_parquet_path. -/
def run_unit (lake : List String) (lnk : String) : List String × Nat :=
  if data_lake_presence_check (fun p => lake.contains p) lnk then (lake, 0)
  else (saved_parquet_path lnk :: lake, 1)

/-- Effectful collaborators of el_single_link, each of which can raise:
wget-based download_file, gzip-based uncompress_file, pmid_to_doi_linktable,
and os.remove; plus os.path.exists for the presence check. -/
structure PipelineEnv where
  fetch : String → Except String String
  uncompress : String → Except String String
  linktable : String → Except String Table
  removeFile : String → Except String Unit
  lakeHas : String → Bool

/-- el_single_link (pubmed_pmid_to_doi.py, lines 122-131): download,
uncompress, build the link table, delete both transient files. No stage is
wrapped in a try block, so the first raising stage aborts the call. -/
def el_single_link (env : PipelineEnv) (url : String) : Except String Unit := do
  let downloaded_file_path ← env.fetch url
  let uncompressed_file_path ← env.uncompress downloaded_file_path
  let _tbl ← env.linktable uncompressed_file_path
  let _u1 ← env.removeFile uncompressed_file_path
  let _u2 ← env.removeFile downloaded_file_path
  Except.ok ()

/-- The for-loop of main_function (lines 154-161) over its slice of links:
skip a link when the presence check finds its parquet, otherwise run
el_single_link on baseline_url + link. main_function has no try block, so an
exception raised by el_single_link propagates and ends the loop. Returns the
list of links fully processed by el_single_link, and the uncaught exception
if one aborted the batch. -/
def run_links (env : PipelineEnv) (pcheck : Bool) :
    List String → List String × Option String
  | [] => ([], none)
  | lnk :: rest =>
      if pcheck && data_lake_presence_check env.lakeHas lnk then
        run_links env pcheck rest
      else
        match el_single_link env (baseline_url ++ lnk) with
        | Except.ok _ =>
            ((run_links env pcheck rest).1.cons lnk, (run_links env pcheck rest).2)
        | Except.error e => ([], some e)

/-- An environment in which the fetch of pubmed23n0001.xml.gz raises and
every other stage succeeds; nothing is in the data lake yet. -/
def envFail : PipelineEnv where
  fetch := fun u =>
    if u = baseline_url ++ "pubmed23n0001.xml.gz" then
      Except.error "ConnectionError"
    else Except.ok (sync_download_path "pubmed_data" u)
  uncompress := fun p => Except.ok (uncompress_path p)
  linktable := fun _ => Except.ok ⟨["PMID", "DOI"], []⟩
  removeFile := fun _ => Except.ok ()
  lakeHas := fun _ => false

end PmidDoi

/-! Theorems. Helper lemmas first, then one theorem per claim (with its
counterexample and witness where required). -/

namespace AsyncDL

theorem downloadLoop_event_kinds (oracle : Nat → AttemptResult) (i fc : Nat) :
    ∀ e ∈ (downloadLoop oracle i fc).1,
      (∃ j, e = Event.getAttempt j) ∨ e = Event.retrySleep := by
  induction i, fc using downloadLoop.induct oracle with
  | case1 i fc s body h =>
      intro e he
      rw [downloadLoop, h] at he
      simp at he
      exact Or.inl ⟨i, he⟩
  | case2 i fc h hgt =>
      intro e he
      rw [downloadLoop, h] at he
      simp [hgt] at he
      exact Or.inl ⟨i, he⟩
  | case3 i fc h hgt ih =>
      intro e he
      rw [downloadLoop, h] at he
      simp [hgt] at he
      rcases he with he | he | he
      · exact Or.inl ⟨i, he⟩
      · exact Or.inr he
      · exact ih e he

theorem downloadLoop_countP_zero (oracle : Nat → AttemptResult) (i fc : Nat)
    (p : Event → Bool) (hg : ∀ j, p (Event.getAttempt j) = false)
    (hr : p Event.retrySleep = false) :
    (downloadLoop oracle i fc).1.countP p = 0 := by
  rw [List.countP_eq_zero]
  intro e he
  rcases downloadLoop_event_kinds oracle i fc e he with ⟨j, rfl⟩ | rfl
  · simp [hg j]
  · simp [hr]

theorem download_file_eq (url : String) (oracle : Nat → AttemptResult) :
    download_file url oracle =
      (Event.acquireSem :: Event.pacingSleep ::
        ((downloadLoop oracle 0 0).1 ++
          (match (downloadLoop oracle 0 0).2 with
           | some body =>
               if body.isEmpty then []
               else [Event.fileWrite ("data/" ++ fileNameOf url) body]
           | none => []))) ++ [Event.releaseSem] := by
  unfold download_file
  simp [List.append_assoc]

theorem numAttempts_eq (url : String) (oracle : Nat → AttemptResult) :
    numAttempts (download_file url oracle) =
      (downloadLoop oracle 0 0).1.countP isGet := by
  unfold numAttempts
  rw [download_file_eq]
  cases h2 : (downloadLoop oracle 0 0).2 with
  | none => simp [h2, List.countP_append, List.countP_cons, isGet]
  | some body =>
      by_cases hbe : body.isEmpty <;>
        simp [h2, hbe, List.countP_append, List.countP_cons, isGet]

theorem downloadLoop_all_fail (oracle : Nat → AttemptResult)
    (hall : ∀ j, oracle j = AttemptResult.exn) :
    ∀ i fc, fc ≤ 10 →
      (downloadLoop oracle i fc).1.countP isGet = 11 - fc ∧
      (downloadLoop oracle i fc).2 = none := by
  intro i fc
  induction i, fc using downloadLoop.induct oracle with
  | case1 i fc s body h =>
      intro _
      rw [hall i] at h
      exact AttemptResult.noConfusion h
  | case2 i fc h hgt =>
      intro hfc
      rw [downloadLoop, h]
      simp [hgt, isGet, List.countP_cons]
      omega
  | case3 i fc h hgt ih =>
      intro hfc
      rw [downloadLoop, h]
      obtain ⟨hc, hn⟩ := ih (by omega)
      simp [hgt, List.countP_cons, isGet, hc, hn]
      omega

theorem downloadLoop_succ_after (oracle : Nat → AttemptResult)
    (s : Nat) (b : List Nat) :
    ∀ (m i fc : Nat), fc + m ≤ 10 →
      (∀ j, j < m → oracle (i + j) = AttemptResult.exn) →
      oracle (i + m) = AttemptResult.ok s b →
      (downloadLoop oracle i fc).2 = some b ∧
      (downloadLoop oracle i fc).1.countP isGet = m + 1 := by
  intro m
  induction m with
  | zero =>
      intro i fc _ _ hok
      rw [Nat.add_zero] at hok
      rw [downloadLoop, hok]
      simp [List.countP_cons, isGet]
  | succ n ih =>
      intro i fc hle hf hok
      have h0 : oracle i = AttemptResult.exn := by
        have := hf 0 (Nat.succ_pos n)
        simpa using this
      have hng : ¬ 10 < fc + 1 := by omega
      rw [downloadLoop, h0]
      have hrest := ih (i + 1) (fc + 1) (by omega)
        (fun j hj => by
          have heq : i + 1 + j = i + (j + 1) := by omega
          rw [heq]
          exact hf (j + 1) (by omega))
        (by
          have heq : i + 1 + n = i + (n + 1) := by omega
          rw [heq]
          exact hok)
      simp [hng, List.countP_cons, isGet, hrest.1, hrest.2]

end AsyncDL

open AsyncDL SemModel PmidDoi

/-- Claim C1, counterexample: against an endpoint whose every GET attempt
fails, download_file does not stop after 10 attempts: its trace holds 11 GET
attempts, so the claimed count of exactly 10 is false. -/
theorem always_fail_not_ten_attempts :
    ¬ numAttempts
        (download_file "https://ftp.ncbi.nlm.nih.gov/pubmed/baseline/pubmed23n0001.xml.gz"
          alwaysFailOracle) = 10 := by
  simp [download_file, downloadLoop, numAttempts, fileNameOf, alwaysFailOracle]
  decide

/-- Claim C1, amended: for a URL whose every GET attempt fails, download_file
stops retrying after exactly 11 attempts in total (the loop breaks once
fail_count exceeds 10), yields no data, writes no file, propagates no
exception, and still releases the semaphore as its final action. -/
theorem always_fail_eleven_attempts (url : String)
    (oracle : Nat → AttemptResult)
    (hall : ∀ j, oracle j = AttemptResult.exn) :
    numAttempts (download_file url oracle) = 11 ∧
    (downloadLoop oracle 0 0).2 = none ∧
    (download_file url oracle).countP isWrite = 0 ∧
    (download_file url oracle).getLast? = some Event.releaseSem := by
  obtain ⟨hc, hn⟩ := downloadLoop_all_fail oracle hall 0 0 (by omega)
  have hW := downloadLoop_countP_zero oracle 0 0 isWrite (fun j => rfl) rfl
  refine ⟨?_, hn, ?_, ?_⟩
  · rw [numAttempts_eq, hc]
  · rw [download_file_eq]
    simp [hn, List.countP_append, List.countP_cons, hW, isWrite]
  · rw [download_file_eq]
    exact List.getLast?_concat _

/-- Claim C1, witness: the amended statement instantiated at a concrete URL
and the always-failing endpoint. -/
theorem always_fail_eleven_attempts_witness :
    numAttempts (download_file "u1" alwaysFailOracle) = 11 ∧
    (downloadLoop alwaysFailOracle 0 0).2 = none ∧
    (download_file "u1" alwaysFailOracle).countP isWrite = 0 ∧
    (download_file "u1" alwaysFailOracle).getLast? = some Event.releaseSem :=
  always_fail_eleven_attempts "u1" alwaysFailOracle (fun _ => rfl)

/-- Claim C2: for every URL and every outcome of the attempts (success,
saved file, or abandonment after exhausting retries), the trace of
download_file acquires the semaphore exactly once, releases it exactly once,
and the release is the last event of the call: no exit path leaves the
permit held. -/
theorem permit_released_every_path (url : String)
    (oracle : Nat → AttemptResult) :
    (download_file url oracle).countP isAcquire = 1 ∧
    (download_file url oracle).countP isRelease = 1 ∧
    (download_file url oracle).getLast? = some Event.releaseSem := by
  have hA := downloadLoop_countP_zero oracle 0 0 isAcquire (fun j => rfl) rfl
  have hR := downloadLoop_countP_zero oracle 0 0 isRelease (fun j => rfl) rfl
  rw [download_file_eq]
  refine ⟨?_, ?_, ?_⟩
  · cases h2 : (downloadLoop oracle 0 0).2 with
    | none => simp [h2, List.countP_append, List.countP_cons, hA, isAcquire]
    | some body =>
        by_cases hbe : body.isEmpty <;>
          simp [h2, hbe, List.countP_append, List.countP_cons, hA, isAcquire]
  · cases h2 : (downloadLoop oracle 0 0).2 with
    | none => simp [h2, List.countP_append, List.countP_cons, hR, isRelease]
    | some body =>
        by_cases hbe : body.isEmpty <;>
          simp [h2, hbe, List.countP_append, List.countP_cons, hR, isRelease]
  · exact List.getLast?_concat _

/-- Claim C4, counterexample: an endpoint that answers every GET with HTTP
404 and body [7]. download_file does not retry: it accepts the 404 body as
data after a single attempt (the status assert is commented out and aiohttp
does not raise on a non-success status). -/
theorem bad_status_body_accepted :
    (downloadLoop oracle404 0 0).2 = some [7] ∧
    numAttempts (download_file "u404" oracle404) = 1 := by
  constructor
  · simp [downloadLoop, oracle404]
  · simp [numAttempts, download_file, downloadLoop, oracle404, fileNameOf]
    decide

/-- Claim C4, amended: download_file retries (with a fixed delay) exactly on
attempts that raise inside the try block (timeout, reset, failed read); an
attempt that returns a response is accepted whatever its HTTP status: after
k raising attempts (k at most 10), a response with any status s and body b
ends the loop with data = b and k + 1 attempts in total. -/
theorem exn_retried_any_status_accepted (url : String)
    (oracle : Nat → AttemptResult) (k s : Nat) (b : List Nat)
    (hk : k ≤ 10)
    (hfail : ∀ j, j < k → oracle j = AttemptResult.exn)
    (hok : oracle k = AttemptResult.ok s b) :
    numAttempts (download_file url oracle) = k + 1 ∧
    (downloadLoop oracle 0 0).2 = some b := by
  have h := downloadLoop_succ_after oracle s b k 0 0 (by omega)
    (fun j hj => by simpa using hfail j hj) (by simpa using hok)
  exact ⟨by rw [numAttempts_eq]; exact h.2, h.1⟩

/-- Claim C4, witness: the amended statement at the endpoint that raises
twice and then answers HTTP 500 with body [9]: three attempts in total and
the 500 body accepted. -/
theorem exn_retried_any_status_accepted_witness :
    (∀ j, j < 2 → oracleRetryThen500 j = AttemptResult.exn) ∧
    numAttempts (download_file "w4" oracleRetryThen500) = 2 + 1 ∧
    (downloadLoop oracleRetryThen500 0 0).2 = some [9] :=
  ⟨by decide,
   (exn_retried_any_status_accepted "w4" oracleRetryThen500 2 500 [9]
      (by decide) (by decide) (by decide)).1,
   (exn_retried_any_status_accepted "w4" oracleRetryThen500 2 500 [9]
      (by decide) (by decide) (by decide)).2⟩

/-- Claim C8, counterexample: an endpoint that fails 5 times and then
succeeds with an empty body. download_file performs exactly 6 attempts, but
the body is NOT written to the byte sink: the Python guard *if data:* treats
the empty byte string as falsy, so the claimed write does not happen for
every successful sixth attempt. -/
theorem six_attempts_empty_body_not_written :
    numAttempts (download_file "u8" (failsThenBody [])) = 6 ∧
    (download_file "u8" (failsThenBody [])).countP isWrite = 0 := by
  constructor
  · simp [numAttempts, download_file, downloadLoop, failsThenBody, fileNameOf]
    decide
  · simp [download_file, downloadLoop, failsThenBody, fileNameOf]
    decide

/-- Claim C8, amended: for a URL whose GET fails on the first 5 attempts and
succeeds on the sixth with a non-empty body b, download_file performs
exactly 6 attempts and writes b to the byte sink data/<final URL segment>;
an empty successful body also ends retrying after 6 attempts but is not
written. -/
theorem five_failures_then_success_six_attempts (url : String)
    (b : List Nat) (hb : b ≠ []) :
    numAttempts (download_file url (failsThenBody b)) = 6 ∧
    Event.fileWrite ("data/" ++ fileNameOf url) b ∈
      download_file url (failsThenBody b) := by
  have h := downloadLoop_succ_after (failsThenBody b) 200 b 5 0 0 (by omega)
    (fun j hj => by simp [failsThenBody, hj])
    (by simp [failsThenBody])
  have hbe : b.isEmpty = false := by
    cases b with
    | nil => exact absurd rfl hb
    | cons x xs => rfl
  constructor
  · rw [numAttempts_eq, h.2]
  · rw [download_file_eq]
    simp [h.1, hbe]

/-- Claim C8, witness: the amended statement at a concrete URL and the
non-empty body [1]. -/
theorem five_failures_then_success_witness :
    ([1] : List Nat) ≠ [] ∧
    numAttempts (download_file "https://x/f.gz" (failsThenBody [1])) = 6 ∧
    Event.fileWrite ("data/" ++ fileNameOf "https://x/f.gz") [1] ∈
      download_file "https://x/f.gz" (failsThenBody [1]) :=
  ⟨by decide,
   (five_failures_then_success_six_attempts "https://x/f.gz" [1] (by decide)).1,
   (five_failures_then_success_six_attempts "https://x/f.gz" [1] (by decide)).2⟩

theorem semStep_preserves_inv (s t : SemModel.SemSystem) (hst : SemStep s t)
    (hinv : holdingCount s.tasks + s.counter = 3) :
    holdingCount t.tasks + t.counter = 3 := by
  cases hst with
  | acquire i hi hp hc =>
      have hcs := List.countP_set isHolding s.tasks i SemModel.TaskState.holding hi
      have hp2 : s.tasks[i] = SemModel.TaskState.pending := by simpa using hp
      rw [hp2] at hcs
      simp [isHolding] at hcs
      show List.countP isHolding (s.tasks.set i SemModel.TaskState.holding) +
        (s.counter - 1) = 3
      simp only [holdingCount] at hinv
      generalize hA : List.countP isHolding
        (s.tasks.set i SemModel.TaskState.holding) = A at hcs ⊢
      generalize hB : List.countP isHolding s.tasks = B at hcs hinv
      omega
  | release i hi hh =>
      have hcs := List.countP_set isHolding s.tasks i SemModel.TaskState.done hi
      have hh2 : s.tasks[i] = SemModel.TaskState.holding := by simpa using hh
      rw [hh2] at hcs
      simp [isHolding] at hcs
      have hle : 1 ≤ List.countP isHolding s.tasks := by
        have h0 := List.boole_getElem_le_countP isHolding s.tasks i hi
        rw [hh2] at h0
        exact h0
      show List.countP isHolding (s.tasks.set i SemModel.TaskState.done) +
        (s.counter + 1) = 3
      simp only [holdingCount] at hinv
      generalize hA : List.countP isHolding
        (s.tasks.set i SemModel.TaskState.done) = A at hcs ⊢
      generalize hB : List.countP isHolding s.tasks = B at hcs hle hinv
      omega

theorem reachable_inv (s : SemModel.SemSystem) (h : Reachable s) :
    holdingCount s.tasks + s.counter = 3 := by
  induction h with
  | refl => decide
  | tail _h1 h2 ih => exact semStep_preserves_inv _ _ h2 ih

/-- Claim C3: in the batch run of main (10 download tasks sharing the
semaphore created with limit 3), every reachable state of the scheduler has
at most 3 tasks simultaneously inside the permit-guarded section. -/
theorem semaphore_cap_never_exceeded (s : SemModel.SemSystem)
    (h : Reachable s) : holdingCount s.tasks ≤ 3 := by
  have := reachable_inv s h
  omega

/-- Claim C3, witness: the bound at the reachable state in which the first
task has acquired the semaphore. -/
theorem semaphore_cap_never_exceeded_witness :
    holdingCount afterFirstAcquire.tasks ≤ 3 :=
  semaphore_cap_never_exceeded afterFirstAcquire
    (Relation.ReflTransGen.single
      (SemModel.SemStep.acquire mainInit 0 (by decide) (by decide) (by decide)))

theorem carriesDOI_eq (e : List ArticleId) :
    carriesDOI e = (doiOf e).isSome := by
  unfold carriesDOI doiOf
  cases firstIdOfType "doi" e <;> simp

theorem extractPair_of_hasPMID (e : List ArticleId) (h : hasPMID e = true) :
    ∃ p, extractPair e = Except.ok (some p, doiOf e) := by
  unfold hasPMID at h
  cases hq : firstIdOfType "pubmed" e with
  | none => rw [hq] at h; simp at h
  | some a =>
      rw [hq] at h
      simp at h
      obtain ⟨p, hp⟩ := Option.isSome_iff_exists.mp h
      refine ⟨p, ?_⟩
      unfold extractPair doiOf
      rw [hq]
      dsimp only
      rw [hp]

theorem build_ok_of_hasPMID (doc : List (List ArticleId))
    (hwf : ∀ e ∈ doc, hasPMID e = true) :
    ∃ rows, build_article_list doc = Except.ok rows ∧
      rows.length = doc.length ∧
      (dropna rows).length = doc.countP carriesDOI := by
  induction doc with
  | nil => exact ⟨[], rfl, rfl, rfl⟩
  | cons e es ih =>
      obtain ⟨rows, hr, hlen, hdrop⟩ :=
        ih (fun x hx => hwf x (List.mem_cons_of_mem e hx))
      obtain ⟨p, hp⟩ := extractPair_of_hasPMID e (hwf e (List.mem_cons_self e es))
      refine ⟨(some p, doiOf e) :: rows, ?_, ?_, ?_⟩
      · unfold build_article_list
        rw [hp, hr]
      · simp [hlen]
      · rw [show dropna ((some p, doiOf e) :: rows) =
            if ((some p).isSome && (doiOf e).isSome) then
              (some p, doiOf e) :: dropna rows
            else dropna rows from by simp [dropna, List.filter_cons]]
        rw [List.countP_cons, carriesDOI_eq]
        by_cases hd : (doiOf e).isSome = true <;> simp [hd, hdrop]

/-- Claim C5, counterexample: the claim quantifies over every well-formed
document, including the document with K = 0 occurrences of ArticleIdList
(and hence M = 0 DOIs); on that document pmid_to_doi_linktable does not
produce a 0-row table with the fixed columns — it fails, because assigning
the two column names to the 0-column frame of an empty list raises. -/
theorem extractor_empty_doc_claim_fails :
    ¬ ∃ t, pmid_to_doi_linktable ([] : List (List ArticleId)) = Except.ok t ∧
        t.columns = ["PMID", "DOI"] ∧ t.rows.length = 0 := by
  rintro ⟨t, ht, _hc, _hr⟩
  simp [pmid_to_doi_linktable, build_article_list] at ht

/-- Claim C5, amended: for every well-formed document with K at least 1
occurrences of the ArticleIdList tag (each carrying a pubmed id with
present text), M of which carry a DOI, pmid_to_doi_linktable publishes a
table with exactly M rows and the fixed column names PMID and DOI; every
record whose DOI is absent is dropped before publication. (For K = 0 the
function instead raises on the empty-frame column assignment.) -/
theorem extractor_publishes_M_rows (doc : List (List ArticleId))
    (hne : doc ≠ [])
    (hwf : ∀ e ∈ doc, hasPMID e = true) :
    ∃ t, pmid_to_doi_linktable doc = Except.ok t ∧
      t.columns = ["PMID", "DOI"] ∧
      t.rows.length = doc.countP carriesDOI := by
  obtain ⟨rows, hr, hlen, hdrop⟩ := build_ok_of_hasPMID doc hwf
  have hre : rows.isEmpty = false := by
    cases doc with
    | nil => exact absurd rfl hne
    | cons d ds =>
        cases rows with
        | nil => simp at hlen
        | cons a as => rfl
  refine ⟨⟨["PMID", "DOI"], dropna rows⟩, ?_, rfl, hdrop⟩
  unfold pmid_to_doi_linktable
  rw [hr]
  dsimp only
  rw [hre]
  simp

/-- Claim C5, witness: the amended statement at a concrete document with
K = 2 elements of which M = 1 carries a DOI. -/
theorem extractor_publishes_M_rows_witness :
    docKM ≠ [] ∧ (∀ e ∈ docKM, hasPMID e = true) ∧
    ∃ t, pmid_to_doi_linktable docKM = Except.ok t ∧
      t.columns = ["PMID", "DOI"] ∧
      t.rows.length = docKM.countP carriesDOI :=
  ⟨by decide, by decide, extractor_publishes_M_rows docKM (by decide) (by decide)⟩

/-- Claim C6, counterexample: on a document in which the ArticleIdList tag
never appears, pmid_to_doi_linktable does not return any table at all, so
in particular not an empty one. -/
theorem extractor_empty_doc_no_table :
    ¬ ∃ t, pmid_to_doi_linktable ([] : List (List ArticleId)) = Except.ok t := by
  rintro ⟨t, ht⟩
  simp [pmid_to_doi_linktable, build_article_list] at ht

/-- Claim C6, amended: when the ArticleIdList tag never appears, article_list
stays empty, pd.DataFrame of the empty list has 0 columns, and assigning the
2 fixed column names to it raises a ValueError: the call fails instead of
returning an empty Table. -/
theorem extractor_empty_doc_value_error :
    pmid_to_doi_linktable ([] : List (List ArticleId)) =
      Except.error "ValueError: Length mismatch on empty-frame column assignment" := rfl

/-- Claim C10: every row of the table published by pmid_to_doi_linktable
has a present (non-null) PMID cell and a present DOI cell: the dropna step
removes any record with a missing value in either field, so a record whose
PMID text is absent also never appears in the output. -/
theorem published_rows_nonnull (doc : List (List ArticleId)) (t : Table)
    (h : pmid_to_doi_linktable doc = Except.ok t) :
    ∀ r ∈ t.rows, r.1.isSome = true ∧ r.2.isSome = true := by
  unfold pmid_to_doi_linktable at h
  cases hb : build_article_list doc with
  | error err => rw [hb] at h; exact Except.noConfusion h
  | ok article_list =>
      rw [hb] at h
      dsimp only at h
      by_cases he : article_list.isEmpty = true
      · rw [if_pos he] at h
        exact Except.noConfusion h
      · rw [if_neg he] at h
        injection h with h2
        subst h2
        intro r hr
        have hr2 : r ∈ List.filter
            (fun q => q.1.isSome && q.2.isSome) article_list := hr
        have hm := List.mem_filter.mp hr2
        simpa using hm.2

/-- Claim C10, witness: the non-null property at a concrete document and
its published table. -/
theorem published_rows_nonnull_witness :
    pmid_to_doi_linktable docC10 = Except.ok tblC10 ∧
    ∀ r ∈ tblC10.rows, r.1.isSome = true ∧ r.2.isSome = true :=
  ⟨rfl, published_rows_nonnull docC10 tblC10 rfl⟩

/-- Claim C7, counterexample: a batch of two WorkUnits in which the first
fetch raises. The exception propagates out of el_single_link through
main_function (neither has a try block), the loop ends, and the second
WorkUnit is never processed: the failure of one WorkUnit aborts the batch. -/
theorem batch_aborted_by_failed_unit :
    run_links envFail true ["pubmed23n0001.xml.gz", "pubmed23n0002.xml.gz"] =
      ([], some "ConnectionError") ∧
    "pubmed23n0002.xml.gz" ∉
      (run_links envFail true
        ["pubmed23n0001.xml.gz", "pubmed23n0002.xml.gz"]).1 := by
  have h1 : run_links envFail true
      ["pubmed23n0001.xml.gz", "pubmed23n0002.xml.gz"] =
      ([], some "ConnectionError") := rfl
  refine ⟨h1, ?_⟩
  rw [h1]
  simp

/-- Claim C7, amended: main_function contains a WorkUnit-level failure only
when the presence check skips the unit; otherwise an error raised at any
stage of el_single_link propagates out of the batch loop uncaught, so the
remaining WorkUnits are not processed: a single WorkUnit failure aborts the
batch. -/
theorem failing_unit_aborts_batch (env : PipelineEnv) (pc : Bool)
    (lnk : String) (rest : List String) (err : String)
    (hskip : (pc && data_lake_presence_check env.lakeHas lnk) = false)
    (hfail : el_single_link env (baseline_url ++ lnk) = Except.error err) :
    run_links env pc (lnk :: rest) = ([], some err) := by
  simp [run_links, hskip, hfail]

/-- Claim C7, witness: the amended statement at the two-unit batch whose
first fetch raises. -/
theorem failing_unit_aborts_batch_witness :
    ((true && data_lake_presence_check envFail.lakeHas
        "pubmed23n0001.xml.gz") = false) ∧
    el_single_link envFail (baseline_url ++ "pubmed23n0001.xml.gz") =
      Except.error "ConnectionError" ∧
    run_links envFail true ["pubmed23n0001.xml.gz", "pubmed23n0002.xml.gz"] =
      ([], some "ConnectionError") :=
  ⟨rfl, rfl,
   failing_unit_aborts_batch envFail true "pubmed23n0001.xml.gz"
     ["pubmed23n0002.xml.gz"] "ConnectionError" rfl rfl⟩

/-- Claim C9: data_lake_presence_check derives the parquet name with
file_name.strip(".xml.gz"), a character-set strip, not a suffix removal.
For the link z.xml.gz (every character of which lies in the stripped set)
the first run saves pubmed_data/data_lake/z.parquet but the second run
checks pubmed_data/data_lake/.parquet, misses, and issues 1 network GET
instead of skipping with 0; for a real baseline name such as
pubmed23n0001.xml.gz the two paths agree and the second run does skip. -/
theorem presence_check_strip_mismatch :
    (run_unit (run_unit [] "z.xml.gz").1 "z.xml.gz").2 = 1 ∧
    presence_parquet_path "z.xml.gz" = "pubmed_data/data_lake/.parquet" ∧
    saved_parquet_path "z.xml.gz" = "pubmed_data/data_lake/z.parquet" ∧
    (run_unit (run_unit [] "pubmed23n0001.xml.gz").1
      "pubmed23n0001.xml.gz").2 = 0 := by
  refine ⟨?_, ?_, ?_, ?_⟩ <;> decide
